import Mathlib

/-!
Verification of the Condition Scoring & Session Window Engine of
`corelord-backend` (`routes/sessions.js`), as a shallow embedding in Lean.

Modelling conventions:
* JavaScript numbers are modelled as exact rationals (`ℚ`); timestamps and
  integer scores as `ℤ`.  A missing / `null` / `undefined` field is `Option.none`.
* The cosine smoothstep in `dirScore` uses the transcendental `Math.cos`;
  the embedding abstracts the smoothstep value `t ↦ (1 + cos (π t)) / 2`
  as a function parameter `smooth : ℚ → ℚ`.  Every claim either never
  reaches that branch on its inputs, or only needs that `smooth` maps into
  `[0,1]` (which the real smoothstep does).
* The allowed-direction CSV string is modelled as the already-tokenised
  (trimmed, upper-cased, blanks dropped) list of octant names; the source's
  two guards (`!allowedCsv` for a falsy CSV and `!allowed.length` after
  tokenising) both collapse to the empty-list case.
-/

/-- JavaScript truncating division result used by `%`: truncation toward zero. -/
def ratTrunc (q : ℚ) : ℤ :=
  if 0 ≤ q then ⌊q⌋ else ⌈q⌉

/-- JavaScript remainder operator `a % b` on numbers (sign of the dividend). -/
def jsMod (a b : ℚ) : ℚ :=
  a - b * (ratTrunc (a / b) : ℚ)

/-- Function `normDeg` from `routes/sessions.js`: normalize degrees to `[0, 360)`. -/
def normDeg (d : ℚ) : ℚ :=
  let x := jsMod d 360
  if x < 0 then x + 360 else x

/-- Table `SECTOR_CENTERS` from `routes/sessions.js`: centers of the 8 compass octants;
unknown tokens have no center (the source's `center == null` skip). -/
def SECTOR_CENTERS : String → Option ℚ
  | "N" => some 0
  | "NE" => some 45
  | "E" => some 90
  | "SE" => some 135
  | "S" => some 180
  | "SW" => some 225
  | "W" => some 270
  | "NW" => some 315
  | _ => none

/-- JavaScript `Math.max(0, Math.min(1, x))`. -/
def clamp01 (x : ℚ) : ℚ := max 0 (min 1 x)

lemma clamp01_nonneg (x : ℚ) : 0 ≤ clamp01 x := le_max_left 0 _

lemma clamp01_le_one (x : ℚ) : clamp01 x ≤ 1 :=
  max_le (by norm_num) (min_le_left 1 x)

lemma clamp01_of_nonneg (x : ℚ) (hx : 0 ≤ x) : clamp01 x = min 1 x :=
  max_eq_right (le_min (by norm_num) hx)

/-- One step of the `for (const a of allowed)` accumulation in `dirScore`. -/
def dirStep (smooth : ℚ → ℚ) (d : ℚ) (best : ℚ) (a : String) : ℚ :=
  match SECTOR_CENTERS a with
  | none => best
  | some center =>
    let delta0 := |d - center|
    let delta := min delta0 (360 - delta0)
    if delta ≤ 45/2 then max best 1
    else if delta ≤ 45 then max best (smooth ((delta - 45/2) / (45/2)))
    else best

/-- Function `dirScore` from `routes/sessions.js`.  `deg == null → 0.5`; falsy or empty
allowed list `→ 1.0`; otherwise best octant score, `1.0` within `22.5°`,
cosine smoothstep to `0` by `45°`. -/
def dirScore (smooth : ℚ → ℚ) (deg : Option ℚ) (allowed : List String) : ℚ :=
  match deg with
  | none => 1/2
  | some dg =>
    if allowed = [] then 1
    else
      let d := normDeg dg
      allowed.foldl (dirStep smooth d) 0

/-- Function `bandScore` from `routes/sessions.js`: min/max band with 25 % linear
falloff (`span || 0.0001` when the band is empty), single-bound ramps scaled
by the bound itself (`min || 1`, `max || 1`). -/
def bandScore (val mn? mx? : Option ℚ) : ℚ :=
  match val with
  | none => 1/2
  | some v =>
    match mn?, mx? with
    | none, none => 1
    | some mn, some mx =>
      if mn ≤ v ∧ v ≤ mx then 1
      else
        let span := if mx - mn = 0 then 1/10000 else mx - mn
        let pad := (1/4) * span
        if v < mn then 1 - clamp01 ((mn - v) / pad)
        else 1 - clamp01 ((v - mx) / pad)
    | some mn, none =>
      if mn ≤ v then 1
      else 1 - clamp01 ((mn - v) / (if mn = 0 then 1 else mn))
    | none, some mx =>
      if v ≤ mx then 1
      else 1 - clamp01 ((v - mx) / (if mx = 0 then 1 else mx))

/-- Function `windSpeedScore` from `routes/sessions.js`: `1.0` at or below the max,
linear falloff over `maxWind * 0.5 || 1`. -/
def windSpeedScore (kt maxWind : Option ℚ) : ℚ :=
  match kt with
  | none => 1/2
  | some k =>
    match maxWind with
    | none => 1
    | some mw =>
      if k ≤ mw then 1
      else
        let over := k - mw
        let fall := if mw * (1/2) = 0 then 1 else mw * (1/2)
        1 - clamp01 (over / fall)

/-- Function `tideScore` from `routes/sessions.js`: neutral `0.75` with no bounds,
else delegate to `bandScore`. -/
def tideScore (tide mn? mx? : Option ℚ) : ℚ :=
  match mn?, mx? with
  | none, none => 3/4
  | _, _ => bandScore tide mn? mx?

/-- The score-weight record `W` of `routes/sessions.js`. -/
structure Weights where
  h : ℚ
  p : ℚ
  sd : ℚ
  wd : ℚ
  ws : ℚ
  t : ℚ
deriving DecidableEq, Repr

/-- Value `const W = { h: 1.0, p: 0.8, sd: 0.7, wd: 1.0, ws: 1.0, t: 0.5 }`. -/
def W : Weights := { h := 1, p := 4/5, sd := 7/10, wd := 1, ws := 1, t := 1/2 }

/-- One forecast hour (`items[i]` of `/api/forecast/timeseries`); `ts` is epoch
seconds, every meteorological field nullable. -/
structure Item where
  ts : ℤ
  waveHeightM : Option ℚ := none
  swellPeriodS : Option ℚ := none
  swellDir : Option ℚ := none
  windSpeedKt : Option ℚ := none
  windDir : Option ℚ := none
  tideM : Option ℚ := none
deriving DecidableEq, Repr

/-- A preference profile row as read by `hourlyScore`. -/
structure Prefs where
  MinHeightM : Option ℚ := none
  MaxHeightM : Option ℚ := none
  MinPeriodS : Option ℚ := none
  MaxPeriodS : Option ℚ := none
  AllowedSwellDirs : List String := []
  MaxWindKt : Option ℚ := none
  AllowedWindDirs : List String := []
  MinTideM : Option ℚ := none
  MaxTideM : Option ℚ := none
deriving DecidableEq, Repr

/-- The six sub-scores of one hour (the `subs` record of `hourlyScore`). -/
structure Subs where
  height : ℚ
  period : ℚ
  swellDir : ℚ
  windSpeed : ℚ
  windDir : ℚ
  tide : ℚ
deriving DecidableEq, Repr

/-- The six sub-scores computed by `hourlyScore`. -/
def hourlySubs (smooth : ℚ → ℚ) (item : Item) (prefs : Prefs) : Subs :=
  { height := bandScore item.waveHeightM prefs.MinHeightM prefs.MaxHeightM
    period := bandScore item.swellPeriodS prefs.MinPeriodS prefs.MaxPeriodS
    swellDir := dirScore smooth item.swellDir prefs.AllowedSwellDirs
    windSpeed := windSpeedScore item.windSpeedKt prefs.MaxWindKt
    windDir := dirScore smooth item.windDir prefs.AllowedWindDirs
    tide := tideScore item.tideM prefs.MinTideM prefs.MaxTideM }

/-- The raw weighted sum `s` inside `hourlyScore`, before the clamp. -/
def rawWeightedSum (w : Weights) (s : Subs) : ℚ :=
  w.h * s.height + w.p * s.period + w.sd * s.swellDir +
    w.ws * s.windSpeed + w.wd * s.windDir + w.t * s.tide

/-- Function `hourlyScore` from `routes/sessions.js`: clamped composite plus sub-scores. -/
def hourlyScore (smooth : ℚ → ℚ) (item : Item) (prefs : Prefs) (w : Weights) :
    ℚ × Subs :=
  let subs := hourlySubs smooth item prefs
  (clamp01 (rawWeightedSum w subs), subs)

/-- The spec's notion of the local successor of a `(dow, hour)` pair:
same day and hour+1, or dow advancing by one with hour wrapping 23→0.
Modelled from the spec (§4.3 step 4); used to compare against the code's
pairing test `okNext`. -/
def localSucc (dow h : ℤ) : ℤ × ℤ :=
  if h = 23 then ((dow + 1) % 7, 0) else (dow, h + 1)

/-- The pairing test from `routes/sessions.js`:
`okNext = (dow1 === dow && h1 === ((h0 + 1) % 24)) || (dow1 === ((dow + (h0 === 23 ? 1 : 0)) % 7) && h1 === ((h0 + 1) % 24))`. -/
def okNext (dow h0 dow1 h1 : ℤ) : Bool :=
  (dow1 == dow && h1 == (h0 + 1) % 24) ||
    (dow1 == (dow + (if h0 == 23 then 1 else 0)) % 7 && h1 == (h0 + 1) % 24)

/-- JavaScript `Math.round` (round half up), as used on `windowScore * 100`. -/
def jsRound (q : ℚ) : ℤ := ⌊q + 1/2⌋

/-- One emitted session window.  `start`, `endTs` (`end` in the source, a
reserved word here), `bestHour` and the optional paired hour `snd` carry the
epoch-second timestamps that the source turns into ISO strings; `score` is the
rounded 0–100 integer. -/
structure SessionWindow where
  breakId : ℤ
  start : ℤ
  endTs : ℤ
  score : ℤ
  bestHour : ℤ
  snd : Option ℤ
deriving DecidableEq, Repr

/-- Build the window pushed for a qualifying start hour `it` (local `(dow,
hour)`), with lookahead `next?` = `items[i+1]`: pair it when `okNext` holds,
score one or two hours, average, round, pick `bestHour`. -/
def mkWindow (smooth : ℚ → ℚ) (prefs : Prefs) (b : ℤ) (loc : ℤ → ℤ × ℤ)
    (dow hour : ℤ) (it : Item) (next? : Option Item) : SessionWindow :=
  let sn? : Option Item :=
    match next? with
    | none => none
    | some itN =>
      let p := loc (itN.ts * 1000)
      if okNext dow hour p.1 p.2 then some itN else none
  let s0 := hourlyScore smooth it prefs W
  match sn? with
  | none =>
    { breakId := b, start := it.ts, endTs := it.ts,
      score := jsRound (s0.1 * 100), bestHour := it.ts, snd := none }
  | some itN =>
    let s1 := hourlyScore smooth itN prefs W
    { breakId := b, start := it.ts, endTs := itN.ts,
      score := jsRound ((s0.1 + s1.1) / 2 * 100),
      bestHour := if s1.1 ≤ s0.1 then it.ts else itN.ts,
      snd := some itN.ts }

/-- The horizon test `if (tsMs > cutoff) break`.  `cutoff` is `none` when
`days` parsed to `NaN` (then the comparison is always false, so the walk
never breaks). -/
def beyondCutoff (cutoff? : Option ℤ) (ts : ℤ) : Bool :=
  match cutoff? with
  | none => false
  | some c => ts * 1000 > c

/-- The per-location hour walk of `GET /api/planner/sessions`: stop at the
horizon, map each hour to local `(dow, hour)` (an unresolvable timezone, `loc?
= none`, throws there, modelled as `.error`), skip hours outside the
availability set, and emit one window per qualifying start index, always
advancing by one. -/
def buildWindowsE (smooth : ℚ → ℚ) (prefs : Prefs) (b : ℤ)
    (loc? : Option (ℤ → ℤ × ℤ)) (avail : List (ℤ × ℤ)) (cutoff? : Option ℤ) :
    List Item → Except String (List SessionWindow)
  | [] => .ok []
  | it :: rest =>
    if beyondCutoff cutoff? it.ts then .ok []
    else
      match loc? with
      | none => .error "Invalid time zone specified"
      | some loc =>
        let p := loc (it.ts * 1000)
        if (p.1, p.2) ∈ avail then
          match buildWindowsE smooth prefs b (some loc) avail cutoff? rest with
          | .error e => .error e
          | .ok ws => .ok (mkWindow smooth prefs b loc p.1 p.2 it rest.head? :: ws)
        else buildWindowsE smooth prefs b (some loc) avail cutoff? rest

/-- Outcome of the per-break `fetch` of `/api/forecast/timeseries`:
`thrown` = the fetch rejects or its body fails to parse (the exception
escapes to the route's catch-all); `notOk` = non-2xx status (`!fc.ok`,
e.g. the 404/400/503 "not found" / "no coordinates" / "not yet available"
responses), skipped; `ok items` = parsed payload, where a missing or
non-array `items` field is modelled as the empty list the source substitutes. -/
inductive FetchOutcome where
  | thrown
  | notOk
  | ok (items : List Item)

/-- One row of the preference list; `BreakId` is nullable and falsy `0` is
skipped like the source's `if (!breakId) continue`. -/
structure PrefRow where
  BreakId : Option ℤ
  prefs : Prefs
deriving DecidableEq, Repr

/-- Handle one preference row: skip falsy break ids, propagate a thrown
fetch, skip non-ok statuses and empty series, else walk the hours. -/
def processPref (smooth : ℚ → ℚ) (forecast : ℤ → FetchOutcome)
    (loc? : Option (ℤ → ℤ × ℤ)) (avail : List (ℤ × ℤ)) (cutoff? : Option ℤ)
    (row : PrefRow) : Except String (List SessionWindow) :=
  match row.BreakId with
  | none => .ok []
  | some b =>
    if b = 0 then .ok []
    else
      match forecast b with
      | .thrown => .error "fetch failed"
      | .notOk => .ok []
      | .ok items =>
        if items = [] then .ok []
        else buildWindowsE smooth row.prefs b loc? avail cutoff? items

/-- The `for (const pref of prefsList)` loop: windows accumulate in order;
a thrown fetch aborts the whole computation. -/
def collectWindows (smooth : ℚ → ℚ) (forecast : ℤ → FetchOutcome)
    (loc? : Option (ℤ → ℤ × ℤ)) (avail : List (ℤ × ℤ)) (cutoff? : Option ℤ) :
    List PrefRow → Except String (List SessionWindow)
  | [] => .ok []
  | row :: rest =>
    match processPref smooth forecast loc? avail cutoff? row with
    | .error e => .error e
    | .ok ws =>
      match collectWindows smooth forecast loc? avail cutoff? rest with
      | .error e => .error e
      | .ok ws2 => .ok (ws ++ ws2)

/-- The sort comparator `(b.score - a.score) || (new Date(a.start) - new
Date(b.start))`; the date difference is in milliseconds, monotone in the
epoch-second `start` we store. -/
def winCmp (a b : SessionWindow) : ℤ :=
  if b.score - a.score = 0 then a.start - b.start else b.score - a.score

/-- Predicate deciding whether `a` may precede `b` under the comparator. -/
def winLE (a b : SessionWindow) : Bool := winCmp a b ≤ 0

/-- Sort `windows.sort(...)`: a comparator-consistent sort; modelled with
`List.mergeSort`, which realises any comparator-consistent ordering. -/
def sortWindows (ws : List SessionWindow) : List SessionWindow :=
  ws.mergeSort winLE

/-- The planner environment: everything the route reads besides its two query
parameters.  `tzdb` models `Intl.DateTimeFormat`: `none` for an unresolvable
timezone id (the constructor throws), otherwise the instant-to-local
`(dow, hour)` mapping of `dowHourInTZ`.  `avail` is the availability key set
`"${Dow}@${StartHour}"` as pairs. -/
structure Env where
  prefsList : List PrefRow
  avail : List (ℤ × ℤ)
  forecast : ℤ → FetchOutcome
  tzdb : String → Option (ℤ → ℤ × ℤ)
  now : ℤ

/-- The planner's successful response body (fields the claims touch). -/
structure Response where
  timezone : String
  windows : List SessionWindow
deriving DecidableEq, Repr

/-- Route `GET /api/planner/sessions`.  `daysRaw` is `parseInt(req.query.days ||
"7")`: an absent parameter is `some 7`, an unparsable one is `none` (`NaN`),
which the clamp and cutoff propagate.  `tzRaw.getD "UTC"` is `req.query.tz ||
"UTC"`.  An empty preference list returns an empty window list before the
timezone is ever used. -/
def planSessions (smooth : ℚ → ℚ) (env : Env) (daysRaw : Option ℤ)
    (tzRaw : Option String) : Except String Response :=
  let tz := tzRaw.getD "UTC"
  if env.prefsList = [] then .ok ⟨tz, []⟩
  else
    let cutoff? := daysRaw.map (fun d => env.now + max 1 (min d 7) * 86400000)
    match collectWindows smooth env.forecast (env.tzdb tz) env.avail cutoff?
        env.prefsList with
    | .error e => .error e
    | .ok ws => .ok ⟨tz, sortWindows ws⟩

/-- The preference profile of the spec's end-to-end example:
`{minHeight:0.8, maxHeight:1.5, allowedSwellDirs:["NW"], maxWind:15,
allowedWindDirs:[]}`. -/
def prefsC1 : Prefs :=
  { MinHeightM := some (4/5), MaxHeightM := some (3/2),
    AllowedSwellDirs := ["NW"], MaxWindKt := some 15, AllowedWindDirs := [] }

/-- The forecast hour of the spec's end-to-end example:
`{waveHeightM:1.0, swellDir:315, windSpeedKt:10, windDir:200,
swellPeriodS missing, tideM missing}`. -/
def itemC1 : Item :=
  { ts := 0, waveHeightM := some 1, swellDir := some 315,
    windSpeedKt := some 10, windDir := some 200 }

/-- C1 (counterexample): on the spec's end-to-end example the raw weighted
sum is `4.475`, not the claimed `3.475`. -/
theorem c1_raw_sum_is_not_3475 :
    rawWeightedSum W (hourlySubs (fun _ => 0) itemC1 prefsC1) ≠ 3475/1000 := by
  norm_num [rawWeightedSum, hourlySubs, itemC1, prefsC1, W, bandScore,
    windSpeedScore, tideScore, dirScore, dirStep, normDeg, jsMod, ratTrunc,
    SECTOR_CENTERS, clamp01]

/-- C1 (amended): on the spec's end-to-end example, `hourlyScore` with the
engine weights yields sub-scores height = 1, swellDir = 1, windSpeed = 1,
windDir = 1, period = 0.5, tide = 0.75, a raw weighted sum of `4.475`
(= 179/40), and a composite clamped to `1.0`; this holds for any smoothstep
since the example never enters the cosine branch. -/
theorem c1_end_to_end_example (smooth : ℚ → ℚ) :
    hourlySubs smooth itemC1 prefsC1 =
      { height := 1, period := 1/2, swellDir := 1, windSpeed := 1,
        windDir := 1, tide := 3/4 } ∧
    rawWeightedSum W (hourlySubs smooth itemC1 prefsC1) = 179/40 ∧
    (hourlyScore smooth itemC1 prefsC1 W).1 = 1 := by
  have hsubs : hourlySubs smooth itemC1 prefsC1 =
      { height := 1, period := 1/2, swellDir := 1, windSpeed := 1,
        windDir := 1, tide := 3/4 } := by
    norm_num [hourlySubs, itemC1, prefsC1, bandScore, windSpeedScore,
      tideScore, dirScore, dirStep, normDeg, jsMod, ratTrunc, SECTOR_CENTERS,
      clamp01]
  refine ⟨hsubs, ?_, ?_⟩
  · rw [hsubs]; norm_num [rawWeightedSum, W]
  · rw [hourlyScore, hsubs]; norm_num [rawWeightedSum, W, clamp01]

/-- C2 (code evaluated at the failing input): for a start hour at local
`(dow, hour) = (3, 23)` and a later series element at local `(3, 0)` — e.g.
after a 145-hour data gap, landing on the same weekday's midnight — the
source's `okNext` accepts the pairing, although the local successor of
`(3, 23)` is `(4, 0)`, contradicting the source's own comment
("make sure the next hour is actually the next local hour"). -/
theorem c2_okNext_accepts_non_successor :
    okNext 3 23 3 0 = true ∧ localSucc 3 23 = (4, 0) ∧
      ((3 : ℤ), (0 : ℤ)) ≠ localSucc 3 23 := by
  refine ⟨by decide, by decide, by decide⟩

/-- C3 (counterexample): a missing direction with an empty allowed set scores
`0.5`, not `1.0` — the `deg == null` check precedes the empty-set check. -/
theorem c3_missing_dir_empty_set_is_half :
    dirScore (fun _ => 0) none [] = 1/2 ∧ dirScore (fun _ => 0) none [] ≠ 1 := by
  constructor <;> norm_num [dirScore]

/-- C3 (amended): with an empty allowed set, every present direction scores
`1.0`, but a missing direction scores the neutral `0.5` (the missing-value
case applies before the empty-set case). -/
theorem c3_empty_allowed_set (smooth : ℚ → ℚ) (d : ℚ) :
    dirScore smooth (some d) [] = 1 ∧ dirScore smooth none [] = 1/2 := by
  constructor <;> simp [dirScore]

/-- C4 (counterexample): with the degenerate band `min = max = 1` (allowed by
the claim's `min ≤ max`) the claimed padding is `25 % · (max − min) = 0`, so
the value `1.00001`, which is at least the padding beyond the violated bound,
should score `0`; the code substitutes a span of `0.0001` and scores `0.6`. -/
theorem c4_degenerate_band_cex :
    (1 : ℚ) ≤ 1 ∧ (1 : ℚ) + (1/4) * (1 - 1) ≤ 100001/100000 ∧
    bandScore (some (100001/100000)) (some 1) (some 1) = 3/5 ∧
    bandScore (some (100001/100000)) (some 1) (some 1) ≠ 0 := by
  refine ⟨by norm_num, by norm_num, ?_, ?_⟩ <;>
    norm_num [bandScore, clamp01]

/-- C4 (amended): for a non-degenerate band `min < max`, `bandScore` is `1`
inside the band, and outside it equals `1 − min 1 (distance / pad)` with
`pad = 25 % · (max − min)` — hence strictly between `0` and `1` within the
padding, and exactly `0` once the value is at least the padding beyond the
violated bound. -/
theorem c4_band_falloff (mn mx v : ℚ) (h : mn < mx) :
    ((mn ≤ v ∧ v ≤ mx) → bandScore (some v) (some mn) (some mx) = 1) ∧
    (v < mn → bandScore (some v) (some mn) (some mx)
        = 1 - min 1 ((mn - v) / ((1/4) * (mx - mn)))) ∧
    (mx < v → bandScore (some v) (some mn) (some mx)
        = 1 - min 1 ((v - mx) / ((1/4) * (mx - mn)))) ∧
    (v < mn → mn - v < (1/4) * (mx - mn) →
        0 < bandScore (some v) (some mn) (some mx) ∧
        bandScore (some v) (some mn) (some mx) < 1) ∧
    (mx < v → v - mx < (1/4) * (mx - mn) →
        0 < bandScore (some v) (some mn) (some mx) ∧
        bandScore (some v) (some mn) (some mx) < 1) ∧
    ((1/4) * (mx - mn) ≤ mn - v → bandScore (some v) (some mn) (some mx) = 0) ∧
    ((1/4) * (mx - mn) ≤ v - mx → bandScore (some v) (some mn) (some mx) = 0) := by
  have hspan : ¬ (mx - mn = 0) := by intro hc; linarith
  have hpad : 0 < (1/4) * (mx - mn) := by linarith
  have key : bandScore (some v) (some mn) (some mx) =
      if mn ≤ v ∧ v ≤ mx then 1
      else if v < mn then 1 - clamp01 ((mn - v) / ((1/4) * (mx - mn)))
      else 1 - clamp01 ((v - mx) / ((1/4) * (mx - mn))) := by
    simp only [bandScore, if_neg hspan]
  refine ⟨?_, ?_, ?_, ?_, ?_, ?_, ?_⟩
  · intro hin
    rw [key, if_pos hin]
  · intro hlt
    rw [key, if_neg (by push_neg; intro h1; linarith), if_pos hlt,
      clamp01_of_nonneg _ (div_nonneg (by linarith) (le_of_lt hpad))]
  · intro hgt
    rw [key, if_neg (by push_neg; intro h1; linarith),
      if_neg (by linarith), clamp01_of_nonneg _ (div_nonneg (by linarith)
        (le_of_lt hpad))]
  · intro hlt hclose
    have ht0 : 0 < (mn - v) / ((1/4) * (mx - mn)) := div_pos (by linarith) hpad
    have ht1 : (mn - v) / ((1/4) * (mx - mn)) < 1 := (div_lt_one hpad).mpr hclose
    rw [key, if_neg (by push_neg; intro h1; linarith), if_pos hlt,
      clamp01_of_nonneg _ (le_of_lt ht0), min_eq_right (le_of_lt ht1)]
    constructor <;> linarith
  · intro hgt hclose
    have ht0 : 0 < (v - mx) / ((1/4) * (mx - mn)) := div_pos (by linarith) hpad
    have ht1 : (v - mx) / ((1/4) * (mx - mn)) < 1 := (div_lt_one hpad).mpr hclose
    rw [key, if_neg (by push_neg; intro h1; linarith), if_neg (by linarith),
      clamp01_of_nonneg _ (le_of_lt ht0), min_eq_right (le_of_lt ht1)]
    constructor <;> linarith
  · intro hfar
    have hlt : v < mn := by nlinarith
    have ht1 : 1 ≤ (mn - v) / ((1/4) * (mx - mn)) :=
      (le_div_iff₀ hpad).mpr (by linarith)
    rw [key, if_neg (by push_neg; intro h1; linarith), if_pos hlt,
      clamp01_of_nonneg _ (by linarith), min_eq_left ht1]
    ring
  · intro hfar
    have hgt : mx < v := by nlinarith
    have ht1 : 1 ≤ (v - mx) / ((1/4) * (mx - mn)) :=
      (le_div_iff₀ hpad).mpr (by linarith)
    rw [key, if_neg (by push_neg; intro h1; linarith), if_neg (by linarith),
      clamp01_of_nonneg _ (by linarith), min_eq_left ht1]
    ring

lemma one_sub_clamp01_bounds (x : ℚ) : 0 ≤ 1 - clamp01 x ∧ 1 - clamp01 x ≤ 1 :=
  ⟨by have := clamp01_le_one x; linarith, by have := clamp01_nonneg x; linarith⟩

lemma bandScore_bounds : ∀ val mn? mx? : Option ℚ,
    0 ≤ bandScore val mn? mx? ∧ bandScore val mn? mx? ≤ 1
  | none, _, _ => by norm_num [bandScore]
  | some v, none, none => by norm_num [bandScore]
  | some v, some mn, none => by
    simp only [bandScore]
    split_ifs <;> first | exact one_sub_clamp01_bounds _ | norm_num
  | some v, none, some mx => by
    simp only [bandScore]
    split_ifs <;> first | exact one_sub_clamp01_bounds _ | norm_num
  | some v, some mn, some mx => by
    simp only [bandScore]
    split_ifs <;> first | exact one_sub_clamp01_bounds _ | norm_num

lemma dirStep_bounds (smooth : ℚ → ℚ)
    (hs : ∀ t, 0 ≤ smooth t ∧ smooth t ≤ 1) (d best : ℚ) (a : String)
    (h0 : 0 ≤ best) (h1 : best ≤ 1) :
    0 ≤ dirStep smooth d best a ∧ dirStep smooth d best a ≤ 1 := by
  rcases hSC : SECTOR_CENTERS a with _ | center
  · simp only [dirStep, hSC]
    exact ⟨h0, h1⟩
  · simp only [dirStep, hSC]
    split_ifs
    · exact ⟨le_max_of_le_right zero_le_one, max_le h1 le_rfl⟩
    · obtain ⟨hs0, hs1⟩ := hs ((min |d - center| (360 - |d - center|) - 45/2) / (45/2))
      exact ⟨le_max_of_le_left h0, max_le h1 hs1⟩
    · exact ⟨h0, h1⟩

lemma dirFold_bounds (smooth : ℚ → ℚ)
    (hs : ∀ t, 0 ≤ smooth t ∧ smooth t ≤ 1) (d : ℚ) :
    ∀ (l : List String) (best : ℚ), 0 ≤ best → best ≤ 1 →
      0 ≤ l.foldl (dirStep smooth d) best ∧ l.foldl (dirStep smooth d) best ≤ 1
  | [], best, h0, h1 => ⟨h0, h1⟩
  | a :: l, best, h0, h1 => by
    simp only [List.foldl_cons]
    obtain ⟨s0, s1⟩ := dirStep_bounds smooth hs d best a h0 h1
    exact dirFold_bounds smooth hs d l _ s0 s1

lemma dirScore_bounds (smooth : ℚ → ℚ)
    (hs : ∀ t, 0 ≤ smooth t ∧ smooth t ≤ 1) (deg : Option ℚ)
    (allowed : List String) :
    0 ≤ dirScore smooth deg allowed ∧ dirScore smooth deg allowed ≤ 1 := by
  rcases deg with _ | dg
  · norm_num [dirScore]
  · simp only [dirScore]
    split_ifs
    · norm_num
    · exact dirFold_bounds smooth hs (normDeg dg) allowed 0 le_rfl zero_le_one

lemma windSpeedScore_bounds : ∀ kt maxWind : Option ℚ,
    0 ≤ windSpeedScore kt maxWind ∧ windSpeedScore kt maxWind ≤ 1
  | none, _ => by norm_num [windSpeedScore]
  | some k, none => by norm_num [windSpeedScore]
  | some k, some mw => by
    simp only [windSpeedScore]
    split_ifs <;> first | exact one_sub_clamp01_bounds _ | norm_num

lemma tideScore_bounds : ∀ tide mn? mx? : Option ℚ,
    0 ≤ tideScore tide mn? mx? ∧ tideScore tide mn? mx? ≤ 1
  | _, none, none => by norm_num [tideScore]
  | t, some mn, mx? => by
    simpa only [tideScore] using bandScore_bounds t (some mn) mx?
  | t, none, some mx => by
    simpa only [tideScore] using bandScore_bounds t none (some mx)

/-- C6: for any forecast hour and preference profile (and any smoothstep
with range in `[0,1]`, as the cosine one has), all six sub-scores lie in
`[0,1]` and the composite lies in `[0,1]`, although the engine weights sum
to `5.0` — the clamp, not normalisation, enforces the composite bound. -/
theorem c6_scores_in_unit_interval (smooth : ℚ → ℚ)
    (hs : ∀ t, 0 ≤ smooth t ∧ smooth t ≤ 1) (item : Item) (prefs : Prefs) :
    (0 ≤ (hourlySubs smooth item prefs).height ∧
      (hourlySubs smooth item prefs).height ≤ 1) ∧
    (0 ≤ (hourlySubs smooth item prefs).period ∧
      (hourlySubs smooth item prefs).period ≤ 1) ∧
    (0 ≤ (hourlySubs smooth item prefs).swellDir ∧
      (hourlySubs smooth item prefs).swellDir ≤ 1) ∧
    (0 ≤ (hourlySubs smooth item prefs).windSpeed ∧
      (hourlySubs smooth item prefs).windSpeed ≤ 1) ∧
    (0 ≤ (hourlySubs smooth item prefs).windDir ∧
      (hourlySubs smooth item prefs).windDir ≤ 1) ∧
    (0 ≤ (hourlySubs smooth item prefs).tide ∧
      (hourlySubs smooth item prefs).tide ≤ 1) ∧
    (0 ≤ (hourlyScore smooth item prefs W).1 ∧
      (hourlyScore smooth item prefs W).1 ≤ 1) ∧
    W.h + W.p + W.sd + W.wd + W.ws + W.t = 5 := by
  refine ⟨?_, ?_, ?_, ?_, ?_, ?_, ⟨clamp01_nonneg _, clamp01_le_one _⟩,
    by norm_num [W]⟩
  · exact bandScore_bounds _ _ _
  · exact bandScore_bounds _ _ _
  · exact dirScore_bounds smooth hs _ _
  · exact windSpeedScore_bounds _ _
  · exact dirScore_bounds smooth hs _ _
  · exact tideScore_bounds _ _ _

/-- Witness for C6 at the constant smoothstep `1/2` and the end-to-end
example inputs. -/
theorem c6_scores_in_unit_interval_witness :
    (∀ t : ℚ, 0 ≤ (1/2 : ℚ) ∧ (1/2 : ℚ) ≤ 1) ∧
    0 ≤ (hourlyScore (fun _ => 1/2) itemC1 prefsC1 W).1 ∧
    (hourlyScore (fun _ => 1/2) itemC1 prefsC1 W).1 ≤ 1 :=
  ⟨fun _ => by norm_num,
    (c6_scores_in_unit_interval (fun _ => 1/2) (fun _ => by norm_num) itemC1
      prefsC1).2.2.2.2.2.2.1⟩

/-- Witness for C4 at the band `[0, 4]` and the value `5`, one padding past
the max bound. -/
theorem c4_band_falloff_witness :
    (0 : ℚ) < 4 ∧ bandScore (some 5) (some 0) (some 4) = 0 :=
  ⟨by norm_num,
    (c4_band_falloff 0 4 5 (by norm_num)).2.2.2.2.2.2 (by norm_num)⟩

/-- C5 (counterexample): for `maxKt = 0` (a numeric max-wind preference) the
claimed zero point `1.5 × maxKt = 0` lies below the present speed `0.5`, so
the claimed falloff demands a score of `0`; the code's fallback falloff scale
(`maxWind * 0.5 || 1`) yields `0.5`. -/
theorem c5_zero_max_wind_cex :
    (0 : ℚ) < 1/2 ∧ (3/2) * 0 ≤ (1/2 : ℚ) ∧
    windSpeedScore (some (1/2)) (some 0) = 1/2 ∧
    windSpeedScore (some (1/2)) (some 0) ≠ 0 := by
  refine ⟨by norm_num, by norm_num, ?_, ?_⟩ <;>
    norm_num [windSpeedScore, clamp01]

/-- C5 (amended): for a positive numeric `maxKt`, `windSpeedScore` is `1` at
or below `maxKt`, falls off linearly above it, and reaches `0` at exactly
`1.5 × maxKt`; a missing speed gives `0.5` and an absent `maxKt` gives `1`. -/
theorem c5_wind_speed_falloff (k mw : ℚ) (h : 0 < mw) :
    windSpeedScore none (some mw) = 1/2 ∧
    windSpeedScore (some k) none = 1 ∧
    (k ≤ mw → windSpeedScore (some k) (some mw) = 1) ∧
    (mw < k → windSpeedScore (some k) (some mw)
        = 1 - min 1 ((k - mw) / (mw * (1/2)))) ∧
    windSpeedScore (some ((3/2) * mw)) (some mw) = 0 ∧
    ((3/2) * mw ≤ k → windSpeedScore (some k) (some mw) = 0) := by
  have hf : ¬ (mw * (1/2) = 0) := by intro hc; linarith
  have hfall : 0 < mw * (1/2) := by linarith
  have key : ∀ x : ℚ, windSpeedScore (some x) (some mw) =
      if x ≤ mw then 1 else 1 - clamp01 ((x - mw) / (mw * (1/2))) := by
    intro x
    simp only [windSpeedScore, if_neg hf]
  refine ⟨rfl, rfl, ?_, ?_, ?_, ?_⟩
  · intro hle
    rw [key, if_pos hle]
  · intro hgt
    rw [key, if_neg (by linarith),
      clamp01_of_nonneg _ (div_nonneg (by linarith) (le_of_lt hfall))]
  · have hgt : ¬ ((3/2) * mw ≤ mw) := by intro hc; linarith
    have hone : ((3/2) * mw - mw) / (mw * (1/2)) = 1 := by
      rw [div_eq_one_iff_eq (ne_of_gt hfall)]; ring
    rw [key, if_neg hgt, hone]
    norm_num [clamp01]
  · intro hfar
    have hgt : ¬ (k ≤ mw) := by intro hc; linarith
    have ht1 : 1 ≤ (k - mw) / (mw * (1/2)) :=
      (le_div_iff₀ hfall).mpr (by linarith)
    rw [key, if_neg hgt, clamp01_of_nonneg _ (by linarith), min_eq_left ht1]
    ring


/-- Witness for C5 at `maxKt = 10`: the score is zero at exactly `15` knots. -/
theorem c5_wind_speed_falloff_witness :
    (0 : ℚ) < 10 ∧ windSpeedScore (some ((3/2) * 10)) (some 10) = 0 :=
  ⟨by norm_num, (c5_wind_speed_falloff 15 10 (by norm_num)).2.2.2.2.1⟩

lemma winLE_iff (a b : SessionWindow) :
    winLE a b = true ↔
      (b.score < a.score ∨ (a.score = b.score ∧ a.start ≤ b.start)) := by
  rw [winLE, decide_eq_true_iff]
  unfold winCmp
  split_ifs with h <;> omega

lemma winLE_trans (a b c : SessionWindow) :
    winLE a b → winLE b c → winLE a c := by
  intro hab hbc
  rw [winLE_iff] at hab hbc ⊢
  omega

lemma winLE_total (a b : SessionWindow) : winLE a b || winLE b a := by
  rw [Bool.or_eq_true, winLE_iff, winLE_iff]
  omega

lemma sortWindows_sorted (ws : List SessionWindow) :
    (sortWindows ws).Pairwise
      (fun a b => b.score ≤ a.score ∧ (a.score = b.score → a.start ≤ b.start)) := by
  have h := List.sorted_mergeSort winLE_trans winLE_total ws
  refine List.Pairwise.imp ?_ h
  intro a b hab
  rw [winLE_iff] at hab
  omega

/-- C7: in the final pooled response, any window preceding another has a
score at least as high, and among equal scores the earlier start comes
first — i.e. score descending, then start ascending. -/
theorem c7_ranking_order (smooth : ℚ → ℚ) (env : Env) (daysRaw : Option ℤ)
    (tzRaw : Option String) (r : Response)
    (h : planSessions smooth env daysRaw tzRaw = .ok r) :
    r.windows.Pairwise
      (fun a b => b.score ≤ a.score ∧ (a.score = b.score → a.start ≤ b.start)) := by
  simp only [planSessions] at h
  split at h
  · cases h
    simp
  · split at h
    · cases h
    · cases h
      exact sortWindows_sorted _

/-- Witness for C7 at a concrete environment with no saved preferences. -/
theorem c7_ranking_order_witness :
    planSessions (fun _ => 0) ⟨[], [], fun _ => .notOk, fun _ => none, 0⟩
        (some 7) none = .ok ⟨"UTC", []⟩ ∧
    (Response.mk "UTC" []).windows.Pairwise
      (fun a b => b.score ≤ a.score ∧ (a.score = b.score → a.start ≤ b.start)) :=
  ⟨rfl, c7_ranking_order (fun _ => 0)
    ⟨[], [], fun _ => .notOk, fun _ => none, 0⟩ (some 7) none ⟨"UTC", []⟩ rfl⟩

/-- A forecast hour with no meteorological data, at epoch second 100. -/
def itA : Item := { ts := 100 }

/-- The following forecast hour (epoch second 3700, one hour later). -/
def itB : Item := { ts := 3700 }

/-- A local-time mapping sending `itA` to local `(dow, hour) = (1, 8)` and
every other instant to `(1, 9)`. -/
def locAB : ℤ → ℤ × ℤ := fun t => if t = 100000 then (1, 8) else (1, 9)

/-- An availability set holding only the slot `(dow 1, hour 8)`. -/
def availG : List (ℤ × ℤ) := [(1, 8)]

/-- The session window the walk emits for `itA` paired with `itB`: every
sub-score is neutral, the composite clamps to `1`, the window score rounds
to `100`. -/
def w1 : SessionWindow :=
  { breakId := 1, start := 100, endTs := 3700, score := 100,
    bestHour := 100, snd := some 3700 }

/-- A benign planner environment: one preference row for break 1, whose
cached series is `[itA, itB]`, with the availability slot `(1, 8)` and a
resolvable timezone id. -/
def envGood : Env :=
  { prefsList := [⟨some 1, {}⟩], avail := availG,
    forecast := fun b => if b = 1 then .ok [itA, itB] else .notOk,
    tzdb := fun s => if s = "Europe/Lisbon" then some locAB else none,
    now := 0 }

lemma jsRound_100 : jsRound 100 = 100 := by
  rw [jsRound, Int.floor_eq_iff] <;> norm_num

lemma scoreNeutral (it : Item) (hw : it.waveHeightM = none)
    (hp : it.swellPeriodS = none) (hsd : it.swellDir = none)
    (hws : it.windSpeedKt = none) (hwd : it.windDir = none)
    (ht : it.tideM = none) :
    (hourlyScore (fun _ => 0) it {} W).1 = 1 := by
  rw [hourlyScore]
  norm_num [hourlySubs, hw, hp, hsd, hws, hwd, ht, bandScore, windSpeedScore,
    tideScore, dirScore, rawWeightedSum, W, clamp01, min_def, max_def]

lemma mkWindowG :
    mkWindow (fun _ => 0) {} 1 locAB 1 8 itA (some itB) = w1 := by
  have hA : (hourlyScore (fun _ => 0) itA {} W).1 = 1 :=
    scoreNeutral itA rfl rfl rfl rfl rfl rfl
  have hB : (hourlyScore (fun _ => 0) itB {} W).1 = 1 :=
    scoreNeutral itB rfl rfl rfl rfl rfl rfl
  simp only [itA, itB] at hA hB
  simp only [mkWindow, locAB, okNext, itA, itB]
  norm_num [hA, hB, w1, jsRound_100]

lemma buildG (cutoff? : Option ℤ) (h1 : beyondCutoff cutoff? 100 = false)
    (h2 : beyondCutoff cutoff? 3700 = false) :
    buildWindowsE (fun _ => 0) {} 1 (some locAB) availG cutoff?
      [itA, itB] = .ok [w1] := by
  simp only [buildWindowsE, itA, itB, h1, h2]
  norm_num [locAB, availG]
  exact mkWindowG

lemma collectG (cutoff? : Option ℤ) (h1 : beyondCutoff cutoff? 100 = false)
    (h2 : beyondCutoff cutoff? 3700 = false) :
    collectWindows (fun _ => 0)
      (fun b => if b = 1 then FetchOutcome.ok [itA, itB] else .notOk)
      (some locAB) availG cutoff? [⟨some 1, {}⟩] = .ok [w1] := by
  simp only [collectWindows, processPref]
  norm_num [buildG cutoff? h1 h2, if_neg (List.cons_ne_nil itA [itB])]

lemma planGoodDays7 :
    planSessions (fun _ => 0) envGood (some 7) (some "Europe/Lisbon")
      = .ok ⟨"Europe/Lisbon", [w1]⟩ := by
  simp only [planSessions, envGood]
  norm_num [min_def, max_def,
    collectG (some 604800000) (by norm_num [beyondCutoff])
      (by norm_num [beyondCutoff]), sortWindows]

lemma planGoodNaNDays :
    planSessions (fun _ => 0) envGood none (some "Europe/Lisbon")
      = .ok ⟨"Europe/Lisbon", [w1]⟩ := by
  simp only [planSessions, envGood]
  norm_num [collectG none rfl rfl, sortWindows]

/-- Environment whose first preferred break's forecast fetch throws (network
error or unparseable body) while the second break is fine. -/
def envC9 : Env :=
  { prefsList := [⟨some 2, {}⟩, ⟨some 1, {}⟩], avail := availG,
    forecast := fun b =>
      if b = 2 then .thrown
      else if b = 1 then .ok [itA, itB] else .notOk,
    tzdb := fun s => if s = "Europe/Lisbon" then some locAB else none,
    now := 0 }

/-- Same two-break environment, but break 2's fetch returns a non-success
status (e.g. the 503 "not yet available" response). -/
def envC9NotOk : Env :=
  { prefsList := [⟨some 2, {}⟩, ⟨some 1, {}⟩], avail := availG,
    forecast := fun b =>
      if b = 2 then .notOk
      else if b = 1 then .ok [itA, itB] else .notOk,
    tzdb := fun s => if s = "Europe/Lisbon" then some locAB else none,
    now := 0 }

/-- Same two-break environment, but break 2's payload carries no usable
items array (modelled as the empty list the source substitutes). -/
def envC9Empty : Env :=
  { prefsList := [⟨some 2, {}⟩, ⟨some 1, {}⟩], avail := availG,
    forecast := fun b =>
      if b = 2 then .ok []
      else if b = 1 then .ok [itA, itB] else .notOk,
    tzdb := fun s => if s = "Europe/Lisbon" then some locAB else none,
    now := 0 }

lemma planC9Thrown :
    planSessions (fun _ => 0) envC9 (some 7) (some "Europe/Lisbon")
      = .error "fetch failed" := by
  simp only [planSessions, envC9, collectWindows, processPref]
  norm_num
  intro h
  exact absurd h (List.cons_ne_nil _ _)

lemma collectWindows_cons (smooth : ℚ → ℚ) (f : ℤ → FetchOutcome)
    (loc? : Option (ℤ → ℤ × ℤ)) (avail : List (ℤ × ℤ)) (cutoff? : Option ℤ)
    (row : PrefRow) (rest : List PrefRow) :
    collectWindows smooth f loc? avail cutoff? (row :: rest) =
      match processPref smooth f loc? avail cutoff? row with
      | .error e => .error e
      | .ok ws =>
        match collectWindows smooth f loc? avail cutoff? rest with
        | .error e => .error e
        | .ok ws2 => .ok (ws ++ ws2) := rfl

lemma collectSkip (f : ℤ → FetchOutcome) (hf2 : f 2 = .notOk ∨ f 2 = .ok [])
    (hf1 : f 1 = .ok [itA, itB]) (cutoff? : Option ℤ)
    (h1 : beyondCutoff cutoff? 100 = false)
    (h2 : beyondCutoff cutoff? 3700 = false) :
    collectWindows (fun _ => 0) f (some locAB) availG cutoff?
      [⟨some 2, {}⟩, ⟨some 1, {}⟩] = .ok [w1] := by
  have tail : collectWindows (fun _ => 0) f (some locAB) availG cutoff?
      [⟨some 1, {}⟩] = .ok [w1] := by
    simp only [collectWindows, processPref, hf1]
    norm_num [buildG cutoff? h1 h2, if_neg (List.cons_ne_nil itA [itB])]
  have hp2 : processPref (fun _ => 0) f (some locAB) availG cutoff?
      ⟨some 2, {}⟩ = .ok [] := by
    rcases hf2 with hf2 | hf2 <;> simp [processPref, hf2]
  rw [collectWindows_cons, hp2, tail]
  simp

lemma planC9NotOkSkips :
    planSessions (fun _ => 0) envC9NotOk (some 7) (some "Europe/Lisbon")
      = .ok ⟨"Europe/Lisbon", [w1]⟩ := by
  have hcol := collectSkip
    (fun b => if b = 2 then FetchOutcome.notOk
      else if b = 1 then .ok [itA, itB] else .notOk)
    (Or.inl (by norm_num)) (by norm_num) (some 604800000)
    (by norm_num [beyondCutoff]) (by norm_num [beyondCutoff])
  simp only [planSessions, envC9NotOk]
  norm_num [min_def, max_def, hcol, sortWindows]
  exact List.cons_ne_nil _ _

lemma planC9EmptySkips :
    planSessions (fun _ => 0) envC9Empty (some 7) (some "Europe/Lisbon")
      = .ok ⟨"Europe/Lisbon", [w1]⟩ := by
  have hcol := collectSkip
    (fun b => if b = 2 then FetchOutcome.ok []
      else if b = 1 then .ok [itA, itB] else .notOk)
    (Or.inr (by norm_num)) (by norm_num) (some 604800000)
    (by norm_num [beyondCutoff]) (by norm_num [beyondCutoff])
  simp only [planSessions, envC9Empty]
  norm_num [min_def, max_def, hcol, sortWindows]
  exact List.cons_ne_nil _ _

lemma collectBadTz (cutoff? : Option ℤ)
    (h1 : beyondCutoff cutoff? 100 = false) :
    collectWindows (fun _ => 0)
      (fun b => if b = 1 then FetchOutcome.ok [itA, itB] else .notOk)
      none availG cutoff? [⟨some 1, {}⟩]
      = .error "Invalid time zone specified" := by
  simp only [collectWindows, processPref]
  norm_num [buildWindowsE, itA, itB, h1]
  rfl

lemma planBadTz :
    planSessions (fun _ => 0) envGood (some 7) (some "Mars/Phobos")
      = .error "Invalid time zone specified" := by
  simp only [planSessions, envGood, Option.getD_some]
  rw [if_neg (by decide : ¬ ("Mars/Phobos" = "Europe/Lisbon"))]
  norm_num [min_def, max_def,
    collectBadTz (some 604800000) (by norm_num [beyondCutoff])]

lemma buildWindowsE_none_ok (smooth : ℚ → ℚ) (prefs : Prefs) (b : ℤ)
    (avail : List (ℤ × ℤ)) (cutoff? : Option ℤ) :
    ∀ (items : List Item) (ws : List SessionWindow),
      buildWindowsE smooth prefs b none avail cutoff? items = .ok ws → ws = []
  | [], ws, h => by
    simp only [buildWindowsE, Except.ok.injEq] at h
    exact h.symm
  | it :: rest, ws, h => by
    simp only [buildWindowsE] at h
    split at h
    · simp only [Except.ok.injEq] at h
      exact h.symm
    · exact Except.noConfusion h

lemma processPref_none_ok (smooth : ℚ → ℚ) (f : ℤ → FetchOutcome)
    (avail : List (ℤ × ℤ)) (cutoff? : Option ℤ) (row : PrefRow)
    (ws : List SessionWindow)
    (h : processPref smooth f none avail cutoff? row = .ok ws) : ws = [] := by
  obtain ⟨B, prefs⟩ := row
  cases B with
  | none =>
    simp only [processPref, Except.ok.injEq] at h
    exact h.symm
  | some b =>
    simp only [processPref] at h
    split at h
    · simp only [Except.ok.injEq] at h
      exact h.symm
    · split at h
      · exact Except.noConfusion h
      · simp only [Except.ok.injEq] at h
        exact h.symm
      · split at h
        · simp only [Except.ok.injEq] at h
          exact h.symm
        · exact buildWindowsE_none_ok smooth prefs b avail cutoff? _ ws h

lemma collectWindows_none_ok (smooth : ℚ → ℚ) (f : ℤ → FetchOutcome)
    (avail : List (ℤ × ℤ)) (cutoff? : Option ℤ) :
    ∀ (rows : List PrefRow) (ws : List SessionWindow),
      collectWindows smooth f none avail cutoff? rows = .ok ws → ws = []
  | [], ws, h => by
    simp only [collectWindows, Except.ok.injEq] at h
    exact h.symm
  | row :: rest, ws, h => by
    rw [collectWindows_cons] at h
    rcases hp : processPref smooth f none avail cutoff? row with e | ws1
    · simp only [hp] at h
      exact Except.noConfusion h
    · simp only [hp] at h
      rcases hc : collectWindows smooth f none avail cutoff? rest with e | ws2
      · simp only [hc] at h
        exact Except.noConfusion h
      · simp only [hc, Except.ok.injEq] at h
        have h1 : ws1 = [] := processPref_none_ok smooth f avail cutoff? _ ws1 hp
        have h2 : ws2 = [] := collectWindows_none_ok smooth f avail cutoff? rest ws2 hc
        rw [← h, h1, h2]
        rfl

/-- C8 (counterexample): a request whose `days` parameter fails to parse
(`parseInt` gives `NaN`, modelled as `none`) is not rejected: the planner
runs to completion, scores the forecast, and returns a non-empty window
list. -/
theorem c8_bad_days_not_rejected_cex :
    planSessions (fun _ => 0) envGood none (some "Europe/Lisbon")
        = .ok ⟨"Europe/Lisbon", [w1]⟩ ∧
    (Response.mk "Europe/Lisbon" [w1]).windows ≠ [] :=
  ⟨planGoodNaNDays, by simp⟩

/-- C8 (amended): an unresolvable timezone id is never silently replaced by
UTC — a request that succeeds under it carries no windows at all, and a
request that maps any in-horizon forecast hour fails with the timezone
error (raised mid-request, after retrievals began, not up front); a bad
`windowDays` value, however, is never rejected: it is clamped into 1–7 (an
unparsable value leaves no cutoff at all) and the request proceeds and
scores normally. -/
theorem c8_parameter_handling :
    (∀ (smooth : ℚ → ℚ) (env : Env) (daysRaw : Option ℤ)
        (tzRaw : Option String) (r : Response),
        env.tzdb (tzRaw.getD "UTC") = none →
        planSessions smooth env daysRaw tzRaw = .ok r → r.windows = []) ∧
    planSessions (fun _ => 0) envGood none (some "Europe/Lisbon")
      = .ok ⟨"Europe/Lisbon", [w1]⟩ ∧
    planSessions (fun _ => 0) envGood (some 7) (some "Mars/Phobos")
      = .error "Invalid time zone specified" := by
  refine ⟨?_, planGoodNaNDays, planBadTz⟩
  intro smooth env daysRaw tzRaw r htz h
  simp only [planSessions] at h
  split at h
  · simp only [Except.ok.injEq] at h
    rw [← h]
  · rw [htz] at h
    split at h
    · exact Except.noConfusion h
    · rename_i ws heq
      have hw : ws = [] := collectWindows_none_ok smooth env.forecast
        env.avail _ env.prefsList ws heq
      simp only [Except.ok.injEq] at h
      rw [← h, hw]
      simp [sortWindows]

/-- C9 (counterexample): a network error fetching one location's forecast
(the `fetch` promise rejects) is not isolated to that location — the whole
request fails with a 500, whereas without the failing location the same
request returns the other location's window. -/
theorem c9_network_error_not_isolated_cex :
    planSessions (fun _ => 0) envC9 (some 7) (some "Europe/Lisbon")
        = .error "fetch failed" ∧
    planSessions (fun _ => 0) envGood (some 7) (some "Europe/Lisbon")
      = .ok ⟨"Europe/Lisbon", [w1]⟩ :=
  ⟨planC9Thrown, planGoodDays7⟩

lemma processPref_skipped (smooth : ℚ → ℚ) (f : ℤ → FetchOutcome)
    (loc? : Option (ℤ → ℤ × ℤ)) (avail : List (ℤ × ℤ)) (cutoff? : Option ℤ)
    (row : PrefRow)
    (hf : ∀ b, row.BreakId = some b → f b = .notOk ∨ f b = .ok []) :
    processPref smooth f loc? avail cutoff? row = .ok [] := by
  obtain ⟨B, prefs⟩ := row
  cases B with
  | none => simp [processPref]
  | some b =>
    rcases hf b rfl with hfb | hfb <;> simp [processPref, hfb]

lemma collect_skip_middle (smooth : ℚ → ℚ) (f : ℤ → FetchOutcome)
    (loc? : Option (ℤ → ℤ × ℤ)) (avail : List (ℤ × ℤ)) (cutoff? : Option ℤ)
    (row : PrefRow)
    (hp : processPref smooth f loc? avail cutoff? row = .ok []) :
    ∀ (rows1 rows2 : List PrefRow),
      collectWindows smooth f loc? avail cutoff? (rows1 ++ row :: rows2)
        = collectWindows smooth f loc? avail cutoff? (rows1 ++ rows2)
  | [], rows2 => by
    rw [List.nil_append, List.nil_append, collectWindows_cons, hp]
    rcases hc : collectWindows smooth f loc? avail cutoff? rows2 with e | ws2 <;>
      simp [hc]
  | r :: rows1, rows2 => by
    rw [List.cons_append, List.cons_append, collectWindows_cons,
      collectWindows_cons,
      collect_skip_middle smooth f loc? avail cutoff? row hp rows1 rows2]

/-- C9 (amended): a non-success status or a payload without a usable items
array — including the 503 "not yet available" response — is isolated to its
location: that row contributes `.ok []` and removing it from the batch
leaves the pooled result unchanged; but a thrown network error or an
unparseable body aborts the entire request with a 500 error. -/
theorem c9_failure_isolation :
    (∀ (smooth : ℚ → ℚ) (f : ℤ → FetchOutcome) (loc? : Option (ℤ → ℤ × ℤ))
        (avail : List (ℤ × ℤ)) (cutoff? : Option ℤ) (row : PrefRow),
        (∀ b, row.BreakId = some b → f b = .notOk ∨ f b = .ok []) →
        processPref smooth f loc? avail cutoff? row = .ok []) ∧
    (∀ (smooth : ℚ → ℚ) (f : ℤ → FetchOutcome) (loc? : Option (ℤ → ℤ × ℤ))
        (avail : List (ℤ × ℤ)) (cutoff? : Option ℤ) (row : PrefRow)
        (rows1 rows2 : List PrefRow),
        processPref smooth f loc? avail cutoff? row = .ok [] →
        collectWindows smooth f loc? avail cutoff? (rows1 ++ row :: rows2)
          = collectWindows smooth f loc? avail cutoff? (rows1 ++ rows2)) ∧
    planSessions (fun _ => 0) envC9NotOk (some 7) (some "Europe/Lisbon")
      = .ok ⟨"Europe/Lisbon", [w1]⟩ ∧
    planSessions (fun _ => 0) envC9Empty (some 7) (some "Europe/Lisbon")
      = .ok ⟨"Europe/Lisbon", [w1]⟩ ∧
    planSessions (fun _ => 0) envC9 (some 7) (some "Europe/Lisbon")
      = .error "fetch failed" := by
  refine ⟨processPref_skipped, ?_, planC9NotOkSkips, planC9EmptySkips,
    planC9Thrown⟩
  intro smooth f loc? avail cutoff? row rows1 rows2 hp
  exact collect_skip_middle smooth f loc? avail cutoff? row hp rows1 rows2

lemma mkWindow_start (smooth : ℚ → ℚ) (prefs : Prefs) (b : ℤ)
    (loc : ℤ → ℤ × ℤ) (dow hour : ℤ) (it : Item) (next? : Option Item) :
    (mkWindow smooth prefs b loc dow hour it next?).start = it.ts := by
  simp only [mkWindow]
  split <;> rfl

/-- C10: every emitted window starts at an hour whose local `(dow, hour)`
is in the availability set, but the paired second hour is only checked for
local adjacency, not availability — concretely, the walk over `[itA, itB]`
emits a two-hour window whose second hour's local slot `(1, 9)` is outside
the availability set `[(1, 8)]`. -/
theorem c10_availability_gates_start_only (smooth : ℚ → ℚ) (prefs : Prefs)
    (b : ℤ) (loc : ℤ → ℤ × ℤ) (avail : List (ℤ × ℤ)) (cutoff? : Option ℤ)
    (items : List Item) (ws : List SessionWindow)
    (h : buildWindowsE smooth prefs b (some loc) avail cutoff? items = .ok ws) :
    (∀ win ∈ ws, ((loc (win.start * 1000)).1, (loc (win.start * 1000)).2) ∈ avail) ∧
    (buildWindowsE (fun _ => 0) {} 1 (some locAB) availG (some 604800000)
        [itA, itB] = .ok [w1] ∧
      w1.snd = some itB.ts ∧
      ((locAB (itB.ts * 1000)).1, (locAB (itB.ts * 1000)).2) ∉ availG) := by
  refine ⟨?_, buildG (some 604800000) (by norm_num [beyondCutoff])
    (by norm_num [beyondCutoff]), by simp [w1, itB], by norm_num [locAB, availG, itB]⟩
  induction items generalizing ws with
  | nil =>
    simp only [buildWindowsE, Except.ok.injEq] at h
    rw [← h]
    simp
  | cons it rest ih =>
    simp only [buildWindowsE] at h
    split at h
    · simp only [Except.ok.injEq] at h
      rw [← h]
      simp
    · split at h
      · rename_i hmem
        rcases hrec : buildWindowsE smooth prefs b (some loc) avail cutoff? rest
          with e | ws'
        · simp only [hrec] at h
          exact Except.noConfusion h
        · simp only [hrec, Except.ok.injEq] at h
          rw [← h]
          intro win hw
          rcases List.mem_cons.mp hw with rfl | hw'
          · rw [mkWindow_start]
            exact hmem
          · exact ih ws' hrec win hw'
      · exact ih ws h

/-- Witness for C10 at the concrete two-hour walk. -/
theorem c10_availability_gates_start_only_witness :
    buildWindowsE (fun _ => 0) {} 1 (some locAB) availG (some 604800000)
        [itA, itB] = .ok [w1] ∧
    (∀ win ∈ [w1],
      ((locAB (win.start * 1000)).1, (locAB (win.start * 1000)).2) ∈ availG) := by
  have hb := buildG (some 604800000) (by norm_num [beyondCutoff])
    (by norm_num [beyondCutoff])
  exact ⟨hb, (c10_availability_gates_start_only (fun _ => 0) {} 1 locAB availG
    (some 604800000) [itA, itB] [w1] hb).1⟩
